import Mathlib

/-!
Verification development for the react-sprout routing core.

The definitions below are a shallow embedding of the two provided source
files, src/source/utilities/loaders.js and src/source/utilities/config.js.
JavaScript objects with possibly-absent keys become Lean structures with
Option fields, async functions become pure functions returning their event
trace and settlement, and exceptions become Except.  Helper modules that are
not part of the provided sources (descriptor.js, path.js, match.js,
children.js, response.js, resource.js) are either taken as parameters of the
embedding (a ConfigEnv record, an equivalence predicate on matches) or, where
a claim needs their behaviour, modelled from the specification and marked as
such in their doc comment.
-/

namespace RS

/-- Embeds the result of parsing a URL string with `new URL(...)`: only the
pathname and search components are consumed by the embedded code. -/
structure JsURL where
  pathname : String
  search : String
deriving DecidableEq

/-- Embeds the request objects of the Fetch API as far as the embedded code
reads them: `request.url` (kept pre-parsed as a JsURL). -/
structure JsRequest where
  url : JsURL
deriving DecidableEq

/-- Embeds `render.request` of loaders.js: destructured there into `url` and
`signal`.  The AbortSignal is opaque and represented by a numeric identity. -/
structure RenderRequest where
  url : JsURL
  signal : Nat
deriving DecidableEq

/-- Embeds an HTTP Response object as far as the embedded code reads it:
`ok`, `headers.get('content-type')`, `headers.get('content-length')` (header
values are strings or null, hence Option String), and the decoded bodies
produced by `response.json()` (opaque document identity) and
`response.text()`. -/
structure Response where
  ok : Bool
  contentType : Option String
  contentLength : Option String
  jsonBody : Nat
  textBody : String
deriving DecidableEq

/-- Embeds the JavaScript values flowing through loaders: an HTTP Response, a
decoded JSON document, a text body, or any other value (opaque). -/
inductive Value where
| response (r : Response)
| json (j : Nat)
| text (s : String)
| raw (n : Nat)
deriving DecidableEq

/-- Tests whether a Value is a Response, embedding `x instanceof Response`. -/
def isResponse : Value → Bool
| Value.response _ => true
| _ => false

/-- Embeds the numeric coercion JavaScript applies to a string in `s > 0`:
an empty (or all-blank) string coerces to 0, otherwise the decimal reading is
used when it exists and NaN (never greater than 0) when it does not. -/
def jsToNumber (s : String) : Option Int :=
  let t := s.trim
  if t = "" then some 0 else t.toInt?

/-- Embeds the JavaScript comparison `h > 0` for a header value `h` of type
string-or-null: null coerces to 0, a string is numerically coerced. -/
def jsNumGtZero : Option String → Bool
| none => false
| some s =>
    match jsToNumber s with
    | none => false
    | some n => decide (0 < n)

/-- Embeds `s.includes(pat)` for a non-empty pattern string. -/
def strIncludes (s pat : String) : Bool := (s.splitOn pat).length != 1

/-- Embeds `contentType?.includes('application/json')`: the optional chaining
makes a null content-type yield undefined, which is falsy. -/
def jsIncludesJson : Option String → Bool
| none => false
| some s => strIncludes s "application/json"

/-- Modelled from the spec: `createData` lives in
src/source/utilities/response.js, which is not among the provided sources.
Per section 6 of the spec it decodes the response body as JSON when
content-length is greater than 0 and the content-type indicates JSON, and as
text otherwise; it never returns the Response object itself. -/
def createData (r : Response) : Value :=
  if jsNumGtZero r.contentLength && jsIncludesJson r.contentType then
    Value.json r.jsonBody
  else
    Value.text r.textBody

/-- Embeds the context object a loader or action receives.  JavaScript
objects carry whichever keys the caller chose to include, so every field is
optional; reading an absent key yields undefined (none).  loaders.js builds
this object with url, splat, params and signal only (line 35); the built-in
loader of config.js destructures `request` from it (line 180). -/
structure LoaderCtx where
  url : Option JsURL
  splat : Option (List String)
  params : Option (List (String × String))
  signal : Option Nat
  request : Option JsRequest
  data : Option Nat
deriving DecidableEq

/-- Embeds the JavaScript errors relevant here: the TypeError raised by
reading a property of undefined, and otherwise-opaque rejection reasons. -/
inductive JsErr where
| typeError
| other (n : Nat)
deriving DecidableEq

/-- Type of author-supplied loader functions as invoked by loaders.js. -/
abbrev LoaderFn := LoaderCtx → Except JsErr Value

/-- Embeds the `loader` stored on a compiled route config as loaders.js
consumes it: `typeof loader === 'function'` distinguishes a function from a
static awaitable value. -/
inductive LoaderVal where
| fn (f : LoaderFn)
| static (v : Value)

/-- Embeds `match.config` as far as loaders.js reads it (only `.loader`). -/
structure MatchConfig where
  loader : Option LoaderVal

/-- Embeds the Match chain of the router: a singly linked list from the root
match to the deepest one, each node carrying its config, splat and params
(loaders.js lines 9-12 and 51 walk it through `.children`). -/
inductive Match where
| mk (config : MatchConfig) (splat : List String) (params : List (String × String))
    (children : Option Match)

/-- Reads the config of a match. -/
def Match.configOf : Match → MatchConfig
| Match.mk c _ _ _ => c

/-- Reads the splat of a match. -/
def Match.splatOf : Match → List String
| Match.mk _ s _ _ => s

/-- Reads the params of a match. -/
def Match.paramsOf : Match → List (String × String)
| Match.mk _ _ p _ => p

/-- Reads the child link of a match. -/
def Match.childrenOf : Match → Option Match
| Match.mk _ _ _ c => c

/-- Observable events of one loader promise, in the order the async body of
`createLoaderPromise` (loaders.js lines 27-45) performs them: awaiting the
navigation action promise, invoking the loader function with its context, or
awaiting a static (non-function) loader value. -/
inductive LEvent where
| awaitAction
| invokeLoader (args : LoaderCtx)
| awaitStatic (v : Value)
deriving DecidableEq

/-- Embeds the `action` promise handed to createLoaders: absent (undefined),
or a promise that settled with a value or a rejection. -/
abbrev ActionPromise := Option (Except JsErr Value)

/-- True when awaiting the action promise throws, short-circuiting the rest
of the loader promise body. -/
def actionRejected : ActionPromise → Bool
| some (Except.error _) => true
| _ => false

/-- Embeds loaders.js lines 40-44: a Response result is replaced by
`createData(result)`, every other result is returned unchanged. -/
def coerceLoaderResult : Value → Value
| Value.response r => createData r
| v => v

/-- Embeds `createLoaderPromise` (loaders.js lines 27-45) as the pair of the
event trace the promise performs and its settlement.  The body first awaits
the action promise (a rejection there rejects the loader promise without
invoking the loader); then it invokes the loader with
`{url, splat, params, signal}` when it is a function and awaits it as a
value otherwise; finally a Response result goes through createData. -/
def createLoaderPromise (action : ActionPromise) (loader : LoaderVal) (args : LoaderCtx) :
    List LEvent × Except JsErr Value :=
  match action with
  | some (Except.error e) => ([LEvent.awaitAction], Except.error e)
  | _ =>
      match loader with
      | LoaderVal.fn f =>
          match f args with
          | Except.error e => ([LEvent.awaitAction, LEvent.invokeLoader args], Except.error e)
          | Except.ok v =>
              ([LEvent.awaitAction, LEvent.invokeLoader args], Except.ok (coerceLoaderResult v))
      | LoaderVal.static v =>
          ([LEvent.awaitAction, LEvent.awaitStatic v], Except.ok (coerceLoaderResult v))

/-- One entry of the loader results list (loaders.js line 25): the fields
resource and controller of the source are thin wrappers around the promise
(createResource is in the absent resource.js) and are represented by the
promise itself, split into its trace and its settlement. -/
structure LoaderEntry where
  dirty : Bool
  matched : Match
  trace : List LEvent
  value : Except JsErr Value

/-- Embeds the loader invocation context built by loaders.js line 35 from
`render.request` (url and signal, line 16) and the match (splat and params,
line 33).  No `request` key is included. -/
def loaderArgs (request : RenderRequest) (m : Match) : LoaderCtx :=
  { url := some request.url, splat := some (Match.splatOf m),
    params := some (Match.paramsOf m), signal := some request.signal,
    request := none, data := none }

/-- Embeds loaders.js lines 16-25: a fresh result entry with dirty = false
and a freshly started loader promise for the given match. -/
def freshEntry (request : RenderRequest) (action : ActionPromise) (m : Match)
    (loader : LoaderVal) : LoaderEntry :=
  let p := createLoaderPromise action loader (loaderArgs request m)
  { dirty := false, matched := m, trace := p.1, value := p.2 }

/-- Embeds the reuse predicate of loaders.js line 14: an entry is reusable
for the current match when it is not dirty and `isEquivalentMatch` (from the
absent match.js, kept as the parameter equiv) accepts the pair. -/
def reusablePred (equiv : Match → Match → Bool) (m : Match) : LoaderEntry → Bool :=
  fun e => !e.dirty && equiv m e.matched

/-- Embeds loaders.js lines 14-46 for one match with a loader: look the cache
up with the reuse predicate and fall back to a fresh entry. -/
def loaderResult (equiv : Match → Match → Bool) (request : RenderRequest)
    (action : ActionPromise) (loaders : Option (List LoaderEntry)) (m : Match)
    (loader : LoaderVal) : LoaderEntry :=
  match (loaders.getD []).find? (reusablePred equiv m) with
  | some e => e
  | none => freshEntry request action m loader

/-- Embeds `createLoaders` (loaders.js lines 5-55): walk the match chain from
the root; for every match whose config has a loader, push the reused or
freshly created entry; skip matches without a loader. -/
def createLoaders (equiv : Match → Match → Bool) (request : RenderRequest)
    (action : ActionPromise) (loaders : Option (List LoaderEntry)) :
    Option Match → List LoaderEntry
| none => []
| some (Match.mk config splat params children) =>
    match config.loader with
    | some loader =>
        loaderResult equiv request action loaders (Match.mk config splat params children) loader ::
          createLoaders equiv request action loaders children
    | none => createLoaders equiv request action loaders children

/-- Embeds the fetch call issued by the built-in loader: target URL, HTTP
method and request headers. -/
structure FetchRequest where
  url : String
  method : String
  headers : List (String × String)
deriving DecidableEq

/-- Embeds the response-handling half of the built-in loader body
(config.js lines 189-202), which depends only on the fetch response: decode
as JSON when content-length is greater than 0 and the content-type includes
application/json, as text otherwise; return the decoded result when
`response.ok` and throw the raw response otherwise. -/
def configLoaderHandle (response : Response) : Except Response Value :=
  let result :=
    if jsNumGtZero response.contentLength && jsIncludesJson response.contentType then
      Value.json response.jsonBody
    else
      Value.text response.textBody
  if response.ok then Except.ok result else Except.error response

/-- Embeds `createConfigLoader` (config.js lines 179-204) applied to the
context its returned async loader receives.  The body destructures `request`
from the context; when that key is absent, `new URL(request.url)` reads a
property of undefined and the promise rejects with a TypeError before any
fetch is issued.  Otherwise the body suspends on exactly one fetch, so it is
represented as the fetch request issued (GET on prefix + pathname + search
with the Accept and Range headers) together with the response handler. -/
def createConfigLoader (pre : String) (level : Nat) (ctx : LoaderCtx) :
    Except JsErr (FetchRequest × (Response → Except Response Value)) :=
  match ctx.request with
  | none => Except.error JsErr.typeError
  | some req =>
      Except.ok
        ({ url := pre ++ req.url.pathname ++ req.url.search, method := "GET",
           headers := [("Accept", "application/json"), ("Range", "route=" ++ toString level)] },
         configLoaderHandle)

/-- Embeds `element.type`: the distinguished Redirect component versus every
other (Default) route element. -/
inductive ElemTag where
| redirect
| route
deriving DecidableEq

/-- Embeds the loader/action props of a raw route element: the literal value
`true` requesting the built-in default, or an author-supplied function or
value (opaque identity). -/
inductive RawHandler where
| builtin
| fn (n : Nat)
deriving DecidableEq

/-- Embeds a raw child handed to the compiler: a text node (a structural
authoring error) or a route element whose props mirror
`{path, root, to, status, loader, action, children}` of config.js line 29.
Absent props are none; the children prop is absent or an array (an empty
array is still a truthy JavaScript value, hence Option (List Element) rather
than a bare list). -/
inductive Element where
| text (s : String)
| elem (tag : ElemTag) (path : Option String) (root : Bool) (toDest : Option String)
    (status : Option Nat) (loader : Option RawHandler) (action : Option RawHandler)
    (children : Option (List Element))

/-- Reads element.type; a text node has no type and is reported before its
props are ever read, so any default serves. -/
def Element.tagOf : Element → ElemTag
| Element.text _ => ElemTag.route
| Element.elem t _ _ _ _ _ _ _ => t

/-- Reads element.props.path. -/
def Element.pathOf : Element → Option String
| Element.text _ => none
| Element.elem _ p _ _ _ _ _ _ => p

/-- Reads element.props.root (undefined is falsy). -/
def Element.rootOf : Element → Bool
| Element.text _ => false
| Element.elem _ _ r _ _ _ _ _ => r

/-- Reads element.props.to. -/
def Element.toOf : Element → Option String
| Element.text _ => none
| Element.elem _ _ _ t _ _ _ _ => t

/-- Reads element.props.status. -/
def Element.statusOf : Element → Option Nat
| Element.text _ => none
| Element.elem _ _ _ _ s _ _ _ => s

/-- Reads element.props.loader. -/
def Element.loaderOf : Element → Option RawHandler
| Element.text _ => none
| Element.elem _ _ _ _ _ l _ _ => l

/-- Reads element.props.action. -/
def Element.actionOf : Element → Option RawHandler
| Element.text _ => none
| Element.elem _ _ _ _ _ _ a _ => a

/-- Reads element.props.children. -/
def Element.childrenOf : Element → Option (List Element)
| Element.text _ => none
| Element.elem _ _ _ _ _ _ _ c => c

/-- Embeds `childrenToArray` from the absent children.js: undefined becomes
the empty array, an array stays itself. -/
def childrenToArray : Option (List Element) → List Element
| none => []
| some l => l

/-- Parameters of the compiler supplied by the absent helper modules
descriptor.js and path.js: the descriptor score, the descriptor structure
(opaque identity), descriptor equivalence, path resolution and joining, and
the hash component `pathParts(path)[2]`. -/
structure ConfigEnv where
  descriptorScore : Option String → Int
  descriptorStructure : String → Nat
  equivalentDescriptors : Nat → Nat → Bool
  resolvePaths : String → Option String → String
  joinPaths : String → String → String
  pathHash : String → Option String

/-- Embeds the handler stored on a compiled config node: the authored
function or value unchanged, or the built-in default substituted for the
literal `true` by config.js lines 31-32 (createConfigAction bound to the
prefix, createConfigLoader bound to the prefix and nesting level). -/
inductive CfgHandler where
| raw (h : RawHandler)
| builtinLoader (pre : String) (level : Nat)
| builtinAction (pre : String)
deriving DecidableEq

/-- Embeds config.js line 31: the literal `true` becomes the built-in
action, anything else is kept. -/
def substAction (pre : String) : Option RawHandler → Option CfgHandler
| some RawHandler.builtin => some (CfgHandler.builtinAction pre)
| some h => some (CfgHandler.raw h)
| none => none

/-- Embeds config.js line 32: the literal `true` becomes the built-in
loader for this nesting level, anything else is kept. -/
def substLoader (pre : String) (level : Nat) : Option RawHandler → Option CfgHandler
| some RawHandler.builtin => some (CfgHandler.builtinLoader pre level)
| some h => some (CfgHandler.raw h)
| none => none

/-- Embeds a compiled route config node.  The Redirect emission of config.js
line 60 is the object `{type, path, to, status, action}` (no root, loader or
children keys, hence none there); the Default emission of line 62 is
`{type, path, root, status, loader, action, children}` (no to key). -/
inductive ConfigNode where
| mk (tag : ElemTag) (path : Option String) (root : Option Bool) (toDest : Option String)
    (status : Option Nat) (loader : Option CfgHandler) (action : Option CfgHandler)
    (children : Option (List ConfigNode))

/-- Reads the type of a compiled node. -/
def nodeTag : ConfigNode → ElemTag
| ConfigNode.mk t _ _ _ _ _ _ _ => t

/-- Reads the path of a compiled node. -/
def nodePath : ConfigNode → Option String
| ConfigNode.mk _ p _ _ _ _ _ _ => p

/-- Reads the root flag of a compiled node. -/
def nodeRoot : ConfigNode → Option Bool
| ConfigNode.mk _ _ r _ _ _ _ _ => r

/-- Reads the redirect destination of a compiled node. -/
def nodeTo : ConfigNode → Option String
| ConfigNode.mk _ _ _ t _ _ _ _ => t

/-- Reads the status of a compiled node. -/
def nodeStatus : ConfigNode → Option Nat
| ConfigNode.mk _ _ _ _ s _ _ _ => s

/-- Reads the loader of a compiled node. -/
def nodeLoader : ConfigNode → Option CfgHandler
| ConfigNode.mk _ _ _ _ _ l _ _ => l

/-- Reads the action of a compiled node. -/
def nodeAction : ConfigNode → Option CfgHandler
| ConfigNode.mk _ _ _ _ _ _ a _ => a

/-- Reads the children of a compiled node. -/
def nodeChildren : ConfigNode → Option (List ConfigNode)
| ConfigNode.mk _ _ _ _ _ _ _ c => c

/-- Embeds the RouterConfigError instances of config.js by their message
template, plus the stack exhaustion that bounds the JavaScript recursion. -/
inductive ConfigErr where
| textNode (s : String)
| hashInPath (h : String)
| redirectWithLoader
| redirectWithChildren
| rootWithoutChildrenMsg
| stackOverflow
deriving DecidableEq

/-- Embeds one configConsole.warn call: either a caught RouterConfigError
reported with the offending element, or the duplicate-route warning naming
the earlier and the later colliding element. -/
inductive Warning where
| configError (e : ConfigErr) (named : List Element)
| duplicateRoute (named : List Element)

/-- Compiler state threaded through one createConfig pass: the closure
variable `duplicates` of config.js line 12 (element paired with its opaque
descriptor structure) and the log of warnings emitted so far. -/
structure CompileSt where
  duplicates : List (Element × Nat)
  warnings : List Warning

/-- Embeds the per-level options of createConfigs (config.js line 21). -/
structure ConfigOpts where
  base : String
  level : Nat

/-- Embeds `assertElementIsNotTextNode` (config.js lines 129-135). -/
def assertElementIsNotTextNode : Element → Except ConfigErr Unit
| Element.text s => Except.error (ConfigErr.textNode s)
| _ => Except.ok ()

/-- Embeds `assertElementRedirectHasNoLoader` (config.js lines 137-145):
throws when the element has a truthy loader and its type is Redirect. -/
def assertElementRedirectHasNoLoader (e : Element) : Except ConfigErr Unit :=
  if (Element.loaderOf e).isSome && Element.tagOf e == ElemTag.redirect then
    Except.error ConfigErr.redirectWithLoader
  else Except.ok ()

/-- Embeds `assertElementRedirictHasNoChildren` (config.js lines 147-155,
source spelling kept): throws when the element has a truthy children prop
and its type is Redirect. -/
def assertElementRedirictHasNoChildren (e : Element) : Except ConfigErr Unit :=
  if (Element.childrenOf e).isSome && Element.tagOf e == ElemTag.redirect then
    Except.error ConfigErr.redirectWithChildren
  else Except.ok ()

/-- Embeds `assertElementWithoutChildrenIsNotRoot` (config.js lines 157-165).
The source guard is `if (children && root)`: it throws the message about a
root route without child routes exactly when the element has a truthy
children prop together with the root flag. -/
def assertElementWithoutChildrenIsNotRoot (e : Element) : Except ConfigErr Unit :=
  if (Element.childrenOf e).isSome && Element.rootOf e then
    Except.error ConfigErr.rootWithoutChildrenMsg
  else Except.ok ()

/-- Embeds `assertElementPathHasNoHash` (config.js lines 167-177): reads the
hash part of the path via pathParts (absent path.js, kept in ConfigEnv) and
throws when it is truthy (an empty-string hash is falsy). -/
def assertElementPathHasNoHash (env : ConfigEnv) (e : Element) : Except ConfigErr Unit :=
  match Element.pathOf e with
  | none => Except.ok ()
  | some p =>
      match env.pathHash p with
      | some h => if h.isEmpty then Except.ok () else Except.error (ConfigErr.hashInPath h)
      | none => Except.ok ()

/-- Embeds `assertNoElementErrors` (config.js lines 67-69). -/
def assertNoElementErrors (e : Element) : Except ConfigErr Unit :=
  assertElementIsNotTextNode e

/-- Embeds `assertNoElementWarnings` (config.js lines 86-91), running the
four checks in source order and throwing at the first violation. -/
def assertNoElementWarnings (env : ConfigEnv) (e : Element) : Except ConfigErr Unit := do
  assertElementPathHasNoHash env e
  assertElementRedirectHasNoLoader e
  assertElementRedirictHasNoChildren e
  assertElementWithoutChildrenIsNotRoot e

/-- Embeds `verifyNoElementErrors` (config.js lines 71-84): in a DEV build a
caught RouterConfigError is reported on the warning channel and the element
is excluded (false); outside DEV the error is rethrown.  Every error thrown
by the asserts is a RouterConfigError, so the instanceof test is true. -/
def verifyNoElementErrors (dev : Bool) (e : Element) :
    Except ConfigErr (Bool × Option Warning) :=
  match assertNoElementErrors e with
  | Except.ok _ => Except.ok (true, none)
  | Except.error err =>
      if dev then Except.ok (false, some (Warning.configError err [e]))
      else Except.error err

/-- Embeds `verifyNoElementWarnings` (config.js lines 93-107): in a DEV build
a caught RouterConfigError is reported on the warning channel (the element is
still compiled, its false return value is discarded by forEach); outside DEV
the error is rethrown. -/
def verifyNoElementWarnings (dev : Bool) (env : ConfigEnv) (e : Element) :
    Except ConfigErr (Bool × Option Warning) :=
  match assertNoElementWarnings env e with
  | Except.ok _ => Except.ok (true, none)
  | Except.error err =>
      if dev then Except.ok (false, some (Warning.configError err [e]))
      else Except.error err

/-- Embeds `elements.filter(verifyNoElementErrors)` (config.js line 23),
collecting the surviving elements and appending the warnings emitted for the
dropped ones. -/
def runErrorFilter (dev : Bool) : List Element → CompileSt →
    Except ConfigErr (List Element × CompileSt)
| [], st => Except.ok ([], st)
| e :: rest, st =>
    match verifyNoElementErrors dev e with
    | Except.error err => Except.error err
    | Except.ok (true, _) =>
        match runErrorFilter dev rest st with
        | Except.error err => Except.error err
        | Except.ok (keep, st1) => Except.ok (e :: keep, st1)
    | Except.ok (false, w) =>
        runErrorFilter dev rest { st with warnings := st.warnings ++ w.toList }

/-- Embeds `validElements.forEach(verifyNoElementWarnings)` (config.js line
26), run on the sorted array (sort mutates in place, so forEach sees the
sorted order), appending the warnings emitted for violating elements. -/
def runWarningChecks (dev : Bool) (env : ConfigEnv) : List Element → CompileSt →
    Except ConfigErr CompileSt
| [], st => Except.ok st
| e :: rest, st =>
    match verifyNoElementWarnings dev env e with
    | Except.error err => Except.error err
    | Except.ok (_, w) =>
        runWarningChecks dev env rest { st with warnings := st.warnings ++ w.toList }

/-- Inserts an element into an already-sorted list, keeping scores descending
and placing the element after every earlier element of greater-or-equal
score: together with sortByScoreDesc this is the unique stable descending
sort, matching the ES2019 stable Array.prototype.sort with the comparator of
config.js lines 119-124. -/
def insertByScoreDesc (score : Option String → Int) (e : Element) :
    List Element → List Element
| [] => [e]
| x :: xs =>
    if score (Element.pathOf x) ≤ score (Element.pathOf e) then e :: x :: xs
    else x :: insertByScoreDesc score e xs

/-- Embeds `sortElementsByDescriptorScore` (config.js lines 110-125): a
stable sort, descending by the descriptor score of each element's path prop.
The memo object keyed by path (lines 111-117) is transparent because the
score is a function of the path alone, so it is applied directly. -/
def sortElementsByDescriptorScore (score : Option String → Int) :
    List Element → List Element
| [] => []
| x :: xs => insertByScoreDesc score x (sortElementsByDescriptorScore score xs)

/-- Embeds the descriptor path computed for a childless element (config.js
lines 34 and 43): the path resolved against the base, with a splat segment
joined on when the element has no path prop. -/
def descriptorPathOf (env : ConfigEnv) (base : String) (path : Option String) : String :=
  let childBase := env.resolvePaths base path
  if path.isNone then env.joinPaths childBase "*" else childBase

/-- Embeds the object returned for one element by the map callback of
createConfigs (config.js lines 58-63), after the built-in substitutions of
lines 31-32: a Redirect element yields `{type, path, to, status, action}`
and any other element yields `{type, path, root, status, loader, action,
children}`. -/
def emitNode (pre : String) (level : Nat) (e : Element)
    (childCfgs : Option (List ConfigNode)) : ConfigNode :=
  let action := substAction pre (Element.actionOf e)
  let loader := substLoader pre level (Element.loaderOf e)
  match Element.tagOf e with
  | ElemTag.redirect =>
      ConfigNode.mk ElemTag.redirect (Element.pathOf e) none (Element.toOf e)
        (Element.statusOf e) none action none
  | ElemTag.route =>
      ConfigNode.mk ElemTag.route (Element.pathOf e) (some (Element.rootOf e)) none
        (Element.statusOf e) loader action childCfgs

/-- Embeds the body of the map callback of createConfigs (config.js lines
28-64) for one element: recurse into a non-empty children array with the
resolved base and incremented level; otherwise register the resolved
descriptor structure against the previously seen ones, warning (DEV only)
when an equivalent one exists and recording it otherwise. -/
def buildElement (dev : Bool) (env : ConfigEnv) (pre : String)
    (recurse : List Element → ConfigOpts → CompileSt →
      Except ConfigErr (List ConfigNode × CompileSt))
    (e : Element) (opts : ConfigOpts) (st : CompileSt) :
    Except ConfigErr (ConfigNode × CompileSt) :=
  if (childrenToArray (Element.childrenOf e)).isEmpty then
    match st.duplicates.find? (fun d => env.equivalentDescriptors d.2
        (env.descriptorStructure (descriptorPathOf env opts.base (Element.pathOf e)))) with
    | some d =>
        if dev then
          Except.ok (emitNode pre opts.level e none,
            { st with warnings := st.warnings ++ [Warning.duplicateRoute [d.1, e]] })
        else
          Except.ok (emitNode pre opts.level e none,
            { st with duplicates := st.duplicates ++
                [(e, env.descriptorStructure (descriptorPathOf env opts.base (Element.pathOf e)))] })
    | none =>
        Except.ok (emitNode pre opts.level e none,
          { st with duplicates := st.duplicates ++
              [(e, env.descriptorStructure (descriptorPathOf env opts.base (Element.pathOf e)))] })
  else
    match recurse (childrenToArray (Element.childrenOf e))
        { base := env.resolvePaths opts.base (Element.pathOf e), level := opts.level + 1 } st with
    | Except.error err => Except.error err
    | Except.ok (childCfgs, st1) =>
        Except.ok (emitNode pre opts.level e (some childCfgs), st1)

/-- Embeds `sortedElements.map(...)` of createConfigs: builds each element's
node in order, threading the shared duplicates state and the warning log. -/
def mapConfigs (dev : Bool) (env : ConfigEnv) (pre : String)
    (recurse : List Element → ConfigOpts → CompileSt →
      Except ConfigErr (List ConfigNode × CompileSt)) :
    List Element → ConfigOpts → CompileSt →
    Except ConfigErr (List ConfigNode × CompileSt)
| [], _, st => Except.ok ([], st)
| e :: rest, opts, st =>
    match buildElement dev env pre recurse e opts st with
    | Except.error err => Except.error err
    | Except.ok (node, st1) =>
        match mapConfigs dev env pre recurse rest opts st1 with
        | Except.error err => Except.error err
        | Except.ok (nodes, st2) => Except.ok (node :: nodes, st2)

/-- Embeds `createConfigs` (config.js lines 20-65): filter out erroneous
children, sort the survivors by descending descriptor score, run the warning
checks on them, then map each to its config node, recursing into children
with one unit of fuel less (the fuel bounds the recursion depth exactly as
the JavaScript call stack does). -/
def createConfigs (dev : Bool) (env : ConfigEnv) (pre : String) :
    Nat → List Element → ConfigOpts → CompileSt →
    Except ConfigErr (List ConfigNode × CompileSt)
| 0, _, _, _ => Except.error ConfigErr.stackOverflow
| fuel + 1, elements, opts, st =>
    match runErrorFilter dev elements st with
    | Except.error err => Except.error err
    | Except.ok (validElements, st1) =>
        match runWarningChecks dev env
            (sortElementsByDescriptorScore env.descriptorScore validElements) st1 with
        | Except.error err => Except.error err
        | Except.ok st2 =>
            mapConfigs dev env pre (createConfigs dev env pre fuel)
              (sortElementsByDescriptorScore env.descriptorScore validElements) opts st2

mutual
/-- Checks that a compiled node, if it is a Redirect, carries no loader and
no children, and that the same holds below its children. -/
def nodeRedirectClean : ConfigNode → Bool
| ConfigNode.mk tag _ _ _ _ loader _ children =>
    (if tag == ElemTag.redirect then loader.isNone && children.isNone else true) &&
    (match children with
     | none => true
     | some cs => nodesRedirectClean cs)

/-- Checks nodeRedirectClean over a whole compiled forest. -/
def nodesRedirectClean : List ConfigNode → Bool
| [] => true
| c :: rest => nodeRedirectClean c && nodesRedirectClean rest
end

/-- Concrete compiler environment used to exercise the embedding: constant
score, descriptor structure by resolved length, equivalence by equality of
structures, straightforward path concatenation, and hash-free paths. -/
def env0 : ConfigEnv :=
  { descriptorScore := fun _ => 0,
    descriptorStructure := fun p => p.length,
    equivalentDescriptors := fun a b => a == b,
    resolvePaths := fun base p => base ++ p.getD "",
    joinPaths := fun a b => a ++ "/" ++ b,
    pathHash := fun _ => none }

/-- Concrete childless route element with path /abc. -/
def ce1 : Element := Element.elem ElemTag.route (some "/abc") false none none none none none

/-- Concrete childless route element with path /xyz, whose resolved
descriptor is equivalent (under env0) to that of ce1. -/
def ce2 : Element := Element.elem ElemTag.route (some "/xyz") false none none none none none

/-- Concrete Redirect element carrying a loader, a structural violation. -/
def badRedirectLoader : Element :=
  Element.elem ElemTag.redirect (some "/old") false (some "/new") none
    (some (RawHandler.fn 3)) none none

/-- Concrete route element with the root flag and no children prop. -/
def childlessRoot : Element :=
  Element.elem ElemTag.route (some "/") true none none none none none

/-- Concrete child used below. -/
def childX : Element :=
  Element.elem ElemTag.route (some "a") false none none none none none

/-- Concrete route element with the root flag and one child. -/
def rootWithChild : Element :=
  Element.elem ElemTag.route (some "/") true none none none none (some [childX])

/-- Concrete Redirect element that additionally declares an action. -/
def redirectWithAction : Element :=
  Element.elem ElemTag.redirect (some "/old") false (some "/new") none none
    (some (RawHandler.fn 7)) none

/-- Concrete compile of the tree containing only redirectWithAction. -/
def c6run : Except ConfigErr (List ConfigNode × CompileSt) :=
  createConfigs true env0 "" 2 [redirectWithAction] ⟨"/", 0⟩ ⟨[], []⟩

/-- Config forest produced by c6run. -/
def c6cfgs : List ConfigNode :=
  match c6run with
  | Except.ok (c, _) => c
  | _ => []

/-- Compiler state produced by c6run. -/
def c6st : CompileSt :=
  match c6run with
  | Except.ok (_, s) => s
  | _ => ⟨[], []⟩

/-- Concrete match equivalence accepting every pair. -/
def equiv0 : Match → Match → Bool := fun _ _ => true

/-- Concrete render request. -/
def rr0 : RenderRequest := { url := { pathname := "/users", search := "" }, signal := 0 }

/-- Concrete static loader value. -/
def sl0 : LoaderVal := LoaderVal.static (Value.raw 1)

/-- Concrete one-element match chain whose config carries sl0. -/
def m0 : Match := Match.mk { loader := some sl0 } [] [] none

/-- Concrete request object for the built-in loader context. -/
def jsReq0 : JsRequest := { url := { pathname := "/a", search := "?q=1" } }

/-- Concrete loader context carrying a request object, as the built-in
loader expects. -/
def ctx8 : LoaderCtx :=
  { url := none, splat := none, params := none, signal := none,
    request := some jsReq0, data := none }

/-- Concrete response with a JSON body. -/
def resp0 : Response :=
  { ok := true, contentType := some "application/json; charset=utf-8",
    contentLength := some "12", jsonBody := 4, textBody := "t" }

/-- Concrete child-compilation callback that is never reached because the
elements it accompanies are childless. -/
def recurse0 : List Element → ConfigOpts → CompileSt →
    Except ConfigErr (List ConfigNode × CompileSt) :=
  fun _ _ _ => Except.error ConfigErr.stackOverflow

/-- Concrete mapConfigs run over the sorted sibling set of ce1 and ce2. -/
def w5run : Except ConfigErr (List ConfigNode × CompileSt) :=
  mapConfigs false env0 "" recurse0
    (sortElementsByDescriptorScore env0.descriptorScore [ce1, ce2]) ⟨"/", 0⟩ ⟨[], []⟩

/-- Config forest produced by w5run. -/
def w5cfgs : List ConfigNode :=
  match w5run with
  | Except.ok (c, _) => c
  | _ => []

/-- Compiler state produced by w5run. -/
def w5st : CompileSt :=
  match w5run with
  | Except.ok (_, s) => s
  | _ => ⟨[], []⟩

/-- C1: In the Loading phase, createLoaders reuses a cached loader entry for
a matched segment exactly when some cached entry is not dirty and its match
is equivalent to the segment's match; the reused result is that cached entry
itself, so no new promise is created and the segment's loader is not invoked
again; otherwise the result is a freshly created entry whose promise (after
the action promise resolves) invokes the loader function with the
scheduler-built context. -/
theorem c1_loader_reuse (equiv : Match → Match → Bool) (request : RenderRequest)
    (action : ActionPromise) (cache : List LoaderEntry) (m : Match) (L : LoaderVal)
    (hm : (Match.configOf m).loader = some L) :
    createLoaders equiv request action (some cache) (some m) =
      loaderResult equiv request action (some cache) m L ::
        createLoaders equiv request action (some cache) (Match.childrenOf m) ∧
    ((cache.find? (reusablePred equiv m)).isSome ↔
      ∃ e ∈ cache, e.dirty = false ∧ equiv m e.matched = true) ∧
    (∀ e, cache.find? (reusablePred equiv m) = some e →
      loaderResult equiv request action (some cache) m L = e ∧
      e.dirty = false ∧ equiv m e.matched = true) ∧
    (cache.find? (reusablePred equiv m) = none →
      loaderResult equiv request action (some cache) m L = freshEntry request action m L) ∧
    (∀ f, L = LoaderVal.fn f → actionRejected action = false →
      LEvent.invokeLoader (loaderArgs request m) ∈ (freshEntry request action m L).trace) := by
  refine ⟨?_, ?_, ?_, ?_, ?_⟩
  · cases m with
    | mk config splat params children =>
        simp only [Match.configOf] at hm
        simp [createLoaders, hm, Match.childrenOf]
  · rw [List.find?_isSome]
    constructor
    · rintro ⟨e, he, hp⟩
      simp only [reusablePred, Bool.and_eq_true, Bool.not_eq_true'] at hp
      exact ⟨e, he, hp.1, hp.2⟩
    · rintro ⟨e, he, hd, hq⟩
      exact ⟨e, he, by simp [reusablePred, hd, hq]⟩
  · intro e he
    have hp := List.find?_some he
    simp only [reusablePred, Bool.and_eq_true, Bool.not_eq_true'] at hp
    exact ⟨by simp [loaderResult, he], hp.1, hp.2⟩
  · intro hnone
    simp [loaderResult, hnone]
  · intro f hf hact
    subst hf
    unfold freshEntry createLoaderPromise
    match action, hact with
    | none, _ =>
        cases hres : f (loaderArgs request m) <;> simp [hres]
    | some (Except.ok a), _ =>
        cases hres : f (loaderArgs request m) <;> simp [hres]

/-- Witness for c1_loader_reuse at a concrete empty cache and a one-segment
chain with a static loader. -/
theorem c1_loader_reuse_witness :
    (Match.configOf m0).loader = some sl0 ∧
    (createLoaders equiv0 rr0 none (some []) (some m0) =
      loaderResult equiv0 rr0 none (some []) m0 sl0 ::
        createLoaders equiv0 rr0 none (some []) (Match.childrenOf m0) ∧
    ((([] : List LoaderEntry).find? (reusablePred equiv0 m0)).isSome ↔
      ∃ e ∈ ([] : List LoaderEntry), e.dirty = false ∧ equiv0 m0 e.matched = true) ∧
    (∀ e, ([] : List LoaderEntry).find? (reusablePred equiv0 m0) = some e →
      loaderResult equiv0 rr0 none (some []) m0 sl0 = e ∧
      e.dirty = false ∧ equiv0 m0 e.matched = true) ∧
    (([] : List LoaderEntry).find? (reusablePred equiv0 m0) = none →
      loaderResult equiv0 rr0 none (some []) m0 sl0 = freshEntry rr0 none m0 sl0) ∧
    (∀ f, sl0 = LoaderVal.fn f → actionRejected none = false →
      LEvent.invokeLoader (loaderArgs rr0 m0) ∈ (freshEntry rr0 none m0 sl0).trace)) :=
  ⟨rfl, c1_loader_reuse equiv0 rr0 none [] m0 sl0 rfl⟩

/-- C2: Every freshly created loader entry's promise awaits the navigation's
action promise before anything else: the first event of its trace is
awaiting the action, and any invocation of the loader function occurs at a
strictly later position in the trace. -/
theorem c2_action_precedes_loaders (request : RenderRequest) (action : ActionPromise)
    (m : Match) (L : LoaderVal) :
    (freshEntry request action m L).trace.head? = some LEvent.awaitAction ∧
    ∀ i args, (freshEntry request action m L).trace.get? i =
        some (LEvent.invokeLoader args) → 0 < i := by
  unfold freshEntry createLoaderPromise
  match action with
  | some (Except.error e) =>
      refine ⟨rfl, ?_⟩
      intro i args h
      match i with
      | 0 => simp at h
      | i + 1 => exact Nat.succ_pos i
  | none =>
      cases L with
      | fn f =>
          cases hres : f (loaderArgs request m) <;>
            · refine ⟨by simp [hres], ?_⟩
              intro i args h
              match i with
              | 0 => simp [hres] at h
              | i + 1 => exact Nat.succ_pos i
      | static v =>
          refine ⟨rfl, ?_⟩
          intro i args h
          match i with
          | 0 => simp at h
          | i + 1 => exact Nat.succ_pos i
  | some (Except.ok a) =>
      cases L with
      | fn f =>
          cases hres : f (loaderArgs request m) <;>
            · refine ⟨by simp [hres], ?_⟩
              intro i args h
              match i with
              | 0 => simp [hres] at h
              | i + 1 => exact Nat.succ_pos i
      | static v =>
          refine ⟨rfl, ?_⟩
          intro i args h
          match i with
      | 0 => simp at h
      | i + 1 => exact Nat.succ_pos i

/-- C10: When the action promise has not rejected, the loader promise
settles with the loader's result passed through the Response coercion of
loaders.js lines 40-44: a Response result is stored as createData of it,
and any non-Response result, including the awaited value of a static
non-function loader, is stored unchanged. -/
theorem c10_response_decoding (action : ActionPromise) (L : LoaderVal) (args : LoaderCtx)
    (h : actionRejected action = false) :
    (∀ f v, L = LoaderVal.fn f → f args = Except.ok v →
      (createLoaderPromise action L args).2 = Except.ok (coerceLoaderResult v)) ∧
    (∀ v, L = LoaderVal.static v →
      (createLoaderPromise action L args).2 = Except.ok (coerceLoaderResult v)) ∧
    (∀ r, coerceLoaderResult (Value.response r) = createData r) ∧
    (∀ v, isResponse v = false → coerceLoaderResult v = v) := by
  refine ⟨?_, ?_, fun r => rfl, ?_⟩
  · intro f v hf hres
    subst hf
    unfold createLoaderPromise
    match action, h with
    | none, _ => simp [hres]
    | some (Except.ok a), _ => simp [hres]
  · intro v hv
    subst hv
    unfold createLoaderPromise
    match action, h with
    | none, _ => simp
    | some (Except.ok a), _ => simp
  · intro v hv
    cases v <;> first
      | rfl
      | simp [isResponse] at hv

/-- Witness for c10_response_decoding at a non-rejected (absent) action and
the concrete static loader sl0. -/
theorem c10_response_decoding_witness :
    actionRejected none = false ∧
    ((∀ f v, sl0 = LoaderVal.fn f → f (loaderArgs rr0 m0) = Except.ok v →
      (createLoaderPromise none sl0 (loaderArgs rr0 m0)).2 =
        Except.ok (coerceLoaderResult v)) ∧
    (∀ v, sl0 = LoaderVal.static v →
      (createLoaderPromise none sl0 (loaderArgs rr0 m0)).2 =
        Except.ok (coerceLoaderResult v)) ∧
    (∀ r, coerceLoaderResult (Value.response r) = createData r) ∧
    (∀ v, isResponse v = false → coerceLoaderResult v = v)) :=
  ⟨rfl, c10_response_decoding none sl0 (loaderArgs rr0 m0) rfl⟩

/-- C8: The built-in default loader, applied to a context carrying a request
object, issues exactly one GET to the concatenation of the prefix, the
request URL's pathname and its search, with headers Accept application/json
and Range route=level; its response handler decodes the body as JSON exactly
when content-length is greater than 0 and the content-type includes
application/json and as text otherwise, and it returns the decoded body when
the response status is successful and throws the raw response otherwise. -/
theorem c8_builtin_loader (pre : String) (level : Nat) (ctx : LoaderCtx) (req : JsRequest)
    (h : ctx.request = some req) :
    createConfigLoader pre level ctx =
      Except.ok
        ({ url := pre ++ req.url.pathname ++ req.url.search, method := "GET",
           headers := [("Accept", "application/json"),
             ("Range", "route=" ++ toString level)] },
         configLoaderHandle) ∧
    ∀ resp : Response,
      ((jsNumGtZero resp.contentLength && jsIncludesJson resp.contentType) = true →
        configLoaderHandle resp =
          if resp.ok then Except.ok (Value.json resp.jsonBody) else Except.error resp) ∧
      ((jsNumGtZero resp.contentLength && jsIncludesJson resp.contentType) = false →
        configLoaderHandle resp =
          if resp.ok then Except.ok (Value.text resp.textBody) else Except.error resp) := by
  refine ⟨by simp [createConfigLoader, h], ?_⟩
  intro resp
  constructor <;> intro hc <;> simp [configLoaderHandle, hc]

/-- Witness for c8_builtin_loader at the concrete context ctx8 carrying the
request jsReq0. -/
theorem c8_builtin_loader_witness :
    ctx8.request = some jsReq0 ∧
    (createConfigLoader "api" 1 ctx8 =
      Except.ok
        ({ url := "api" ++ jsReq0.url.pathname ++ jsReq0.url.search, method := "GET",
           headers := [("Accept", "application/json"),
             ("Range", "route=" ++ toString 1)] },
         configLoaderHandle) ∧
    ∀ resp : Response,
      ((jsNumGtZero resp.contentLength && jsIncludesJson resp.contentType) = true →
        configLoaderHandle resp =
          if resp.ok then Except.ok (Value.json resp.jsonBody) else Except.error resp) ∧
      ((jsNumGtZero resp.contentLength && jsIncludesJson resp.contentType) = false →
        configLoaderHandle resp =
          if resp.ok then Except.ok (Value.text resp.textBody) else Except.error resp)) :=
  ⟨rfl, c8_builtin_loader "api" 1 ctx8 jsReq0 rfl⟩

/-- C9: The Loading phase builds the loader context from url, splat, params
and signal only, so it carries no request key; the built-in default loader
destructures request from its context and rejects with a TypeError on any
such context, before issuing any fetch.  A route compiled with loader set to
true therefore never issues the claimed HTTP GET when its loader is invoked
by the scheduler. -/
theorem c9_builtin_context_mismatch :
    (∀ (request : RenderRequest) (m : Match), (loaderArgs request m).request = none) ∧
    (∀ (pre : String) (level : Nat) (ctx : LoaderCtx), ctx.request = none →
      createConfigLoader pre level ctx = Except.error JsErr.typeError) := by
  refine ⟨fun _ _ => rfl, ?_⟩
  intro pre level ctx h
  simp [createConfigLoader, h]

/-- Witness for c9_builtin_context_mismatch at the concrete scheduler
context of rr0 and m0. -/
theorem c9_builtin_context_mismatch_witness :
    (loaderArgs rr0 m0).request = none ∧
    createConfigLoader "" 0 (loaderArgs rr0 m0) = Except.error JsErr.typeError :=
  ⟨c9_builtin_context_mismatch.1 rr0 m0,
   c9_builtin_context_mismatch.2 "" 0 (loaderArgs rr0 m0) rfl⟩

/-- C3 counterexample: at the concrete Redirect-with-loader violation, the
non-DEV (production) context raises the RouterConfigError to the caller
instead of warning, and the DEV context warns instead of raising — the
opposite of the claimed context split. -/
theorem c3_counterexample :
    verifyNoElementWarnings false env0 badRedirectLoader =
      Except.error ConfigErr.redirectWithLoader ∧
    verifyNoElementWarnings true env0 badRedirectLoader =
      Except.ok (false,
        some (Warning.configError ConfigErr.redirectWithLoader [badRedirectLoader])) :=
  ⟨rfl, rfl⟩

/-- C3 amended: for every structural authoring violation caught by the
verify wrappers, the DEV context reports it on the warning channel without
raising and the non-DEV (production) context raises the RouterConfigError to
the caller. -/
theorem c3_dev_warns_prod_raises (env : ConfigEnv) (e : Element) (err : ConfigErr) :
    (assertNoElementWarnings env e = Except.error err →
      verifyNoElementWarnings true env e =
        Except.ok (false, some (Warning.configError err [e])) ∧
      verifyNoElementWarnings false env e = Except.error err) ∧
    (assertNoElementErrors e = Except.error err →
      verifyNoElementErrors true e =
        Except.ok (false, some (Warning.configError err [e])) ∧
      verifyNoElementErrors false e = Except.error err) := by
  constructor
  · intro h
    constructor <;> simp [verifyNoElementWarnings, h]
  · intro h
    constructor <;> simp [verifyNoElementErrors, h]

/-- Witness for c3_dev_warns_prod_raises at the concrete
Redirect-with-loader violation. -/
theorem c3_dev_warns_prod_raises_witness :
    assertNoElementWarnings env0 badRedirectLoader =
      Except.error ConfigErr.redirectWithLoader ∧
    (verifyNoElementWarnings true env0 badRedirectLoader =
      Except.ok (false,
        some (Warning.configError ConfigErr.redirectWithLoader [badRedirectLoader])) ∧
    verifyNoElementWarnings false env0 badRedirectLoader =
      Except.error ConfigErr.redirectWithLoader) :=
  ⟨rfl, (c3_dev_warns_prod_raises env0 badRedirectLoader ConfigErr.redirectWithLoader).1 rfl⟩

/-- C4: The guard of assertElementWithoutChildrenIsNotRoot is inverted with
respect to its own name and error message: a root element without children
passes the check, while a root element with a child raises the error about a
root route without child routes. -/
theorem c4_inverted_guard :
    assertElementWithoutChildrenIsNotRoot childlessRoot = Except.ok () ∧
    assertElementWithoutChildrenIsNotRoot rootWithChild =
      Except.error ConfigErr.rootWithoutChildrenMsg :=
  ⟨rfl, rfl⟩

/-- Membership is preserved by the stable descending insertion. -/
theorem mem_insertByScoreDesc (score : Option String → Int) (e y : Element)
    (l : List Element) :
    y ∈ insertByScoreDesc score e l ↔ y = e ∨ y ∈ l := by
  induction l with
  | nil => simp [insertByScoreDesc]
  | cons x xs ih =>
      unfold insertByScoreDesc
      split
      all_goals simp only [List.mem_cons, ih]
      all_goals tauto

/-- The stable descending insertion is a permutation of consing. -/
theorem perm_insertByScoreDesc (score : Option String → Int) (e : Element)
    (l : List Element) : (insertByScoreDesc score e l).Perm (e :: l) := by
  induction l with
  | nil => simp [insertByScoreDesc]
  | cons x xs ih =>
      unfold insertByScoreDesc
      split
      · exact List.Perm.refl _
      · exact (ih.cons x).trans (List.Perm.swap e x xs)

/-- The stable descending insertion preserves descending sortedness. -/
theorem pairwise_insertByScoreDesc (score : Option String → Int) (e : Element)
    (l : List Element)
    (h : l.Pairwise (fun a b => score (Element.pathOf b) ≤ score (Element.pathOf a))) :
    (insertByScoreDesc score e l).Pairwise
      (fun a b => score (Element.pathOf b) ≤ score (Element.pathOf a)) := by
  induction l with
  | nil => simp [insertByScoreDesc]
  | cons x xs ih =>
      rw [List.pairwise_cons] at h
      unfold insertByScoreDesc
      split
      · rename_i hle
        refine List.pairwise_cons.mpr ⟨?_, List.pairwise_cons.mpr h⟩
        intro y hy
        rcases List.mem_cons.mp hy with rfl | hy2
        · exact hle
        · exact le_trans (h.1 y hy2) hle
      · rename_i hgt
        refine List.pairwise_cons.mpr ⟨?_, ih h.2⟩
        intro y hy
        rcases (mem_insertByScoreDesc score e y xs).mp hy with rfl | hy2
        · exact le_of_lt (lt_of_not_le hgt)
        · exact h.1 y hy2

/-- Stability of the descending insertion: the inserted element lands behind
every earlier element, and in particular behind every earlier element of its
own score, so the subsequence of any fixed score gains the element at its
front position relative to later equal-score elements only. -/
theorem filter_insertByScoreDesc (score : Option String → Int) (s : Int) (e : Element)
    (l : List Element) :
    (insertByScoreDesc score e l).filter (fun x => score (Element.pathOf x) == s) =
      (if score (Element.pathOf e) == s then [e] else []) ++
        l.filter (fun x => score (Element.pathOf x) == s) := by
  induction l with
  | nil =>
      cases hs : score (Element.pathOf e) == s <;>
        simp [insertByScoreDesc, List.filter_cons, hs]
  | cons x xs ih =>
      unfold insertByScoreDesc
      split
      · cases hs : score (Element.pathOf e) == s <;> simp [List.filter_cons, hs]
      · rename_i hgt
        rw [List.filter_cons, List.filter_cons, ih]
        by_cases hes : score (Element.pathOf e) = s
        · have hxs : (score (Element.pathOf x) == s) = false := by
            refine beq_eq_false_iff_ne.mpr ?_
            intro hx
            exact hgt (le_of_eq (hx.trans hes.symm))
          simp [hes, hxs]
        · have hesb : (score (Element.pathOf e) == s) = false := beq_eq_false_iff_ne.mpr hes
          cases hxs : score (Element.pathOf x) == s <;> simp [hesb, hxs]

/-- The embedded stable sort orders scores descending. -/
theorem pairwise_sortElements (score : Option String → Int) (l : List Element) :
    (sortElementsByDescriptorScore score l).Pairwise
      (fun a b => score (Element.pathOf b) ≤ score (Element.pathOf a)) := by
  induction l with
  | nil => simp [sortElementsByDescriptorScore]
  | cons x xs ih =>
      simp only [sortElementsByDescriptorScore]
      exact pairwise_insertByScoreDesc score x _ ih

/-- The embedded stable sort permutes its input. -/
theorem perm_sortElements (score : Option String → Int) (l : List Element) :
    (sortElementsByDescriptorScore score l).Perm l := by
  induction l with
  | nil => simp [sortElementsByDescriptorScore]
  | cons x xs ih =>
      simp only [sortElementsByDescriptorScore]
      exact (perm_insertByScoreDesc score x _).trans (ih.cons x)

/-- The embedded stable sort keeps elements of any fixed score in their
original relative order. -/
theorem filter_sortElements (score : Option String → Int) (l : List Element) (s : Int) :
    (sortElementsByDescriptorScore score l).filter
        (fun e => score (Element.pathOf e) == s) =
      l.filter (fun e => score (Element.pathOf e) == s) := by
  induction l with
  | nil => rfl
  | cons x xs ih =>
      simp only [sortElementsByDescriptorScore]
      rw [filter_insertByScoreDesc, ih, List.filter_cons]
      cases hs : score (Element.pathOf x) == s <;> simp [hs]

/-- The emitted node of an element carries the element's path prop. -/
theorem nodePath_emitNode (pre : String) (level : Nat) (e : Element)
    (c : Option (List ConfigNode)) :
    nodePath (emitNode pre level e c) = Element.pathOf e := by
  cases e with
  | text s => rfl
  | elem t p r td stt l a ch => cases t <;> rfl

/-- Every successful buildElement emits the node of its element. -/
theorem buildElement_ok_shape (dev : Bool) (env : ConfigEnv) (pre : String)
    (recurse : List Element → ConfigOpts → CompileSt →
      Except ConfigErr (List ConfigNode × CompileSt))
    (e : Element) (opts : ConfigOpts) (st : CompileSt) (node : ConfigNode)
    (st1 : CompileSt)
    (h : buildElement dev env pre recurse e opts st = Except.ok (node, st1)) :
    ∃ c, node = emitNode pre opts.level e c := by
  unfold buildElement at h
  split at h
  · split at h
    · split at h <;>
        · simp only [Except.ok.injEq, Prod.mk.injEq] at h
          exact ⟨none, h.1.symm⟩
    · simp only [Except.ok.injEq, Prod.mk.injEq] at h
      exact ⟨none, h.1.symm⟩
  · split at h
    · exact absurd h (by simp)
    · simp only [Except.ok.injEq, Prod.mk.injEq] at h
      rename_i childCfgs st2 _
      exact ⟨some childCfgs, h.1.symm⟩

/-- A successful mapConfigs pass emits exactly one node per element, in
order, each carrying its element's path. -/
theorem mapConfigs_paths (dev : Bool) (env : ConfigEnv) (pre : String)
    (recurse : List Element → ConfigOpts → CompileSt →
      Except ConfigErr (List ConfigNode × CompileSt)) :
    ∀ (elements : List Element) (opts : ConfigOpts) (st : CompileSt)
      (cfgs : List ConfigNode) (st1 : CompileSt),
      mapConfigs dev env pre recurse elements opts st = Except.ok (cfgs, st1) →
      cfgs.map nodePath = elements.map Element.pathOf := by
  intro elements
  induction elements with
  | nil =>
      intro opts st cfgs st1 h
      simp only [mapConfigs, Except.ok.injEq, Prod.mk.injEq] at h
      rw [← h.1]
      rfl
  | cons e rest ih =>
      intro opts st cfgs st1 h
      unfold mapConfigs at h
      split at h
      · exact absurd h (by simp)
      · rename_i node st2 hb
        split at h
        · exact absurd h (by simp)
        · rename_i nodes st3 hm
          simp only [Except.ok.injEq, Prod.mk.injEq] at h
          rw [← h.1]
          simp only [List.map_cons]
          obtain ⟨c, hc⟩ := buildElement_ok_shape dev env pre recurse e opts st node st2 hb
          rw [hc, nodePath_emitNode, ih opts st2 nodes st3 hm]

/-- C5: The sibling order emitted by the compiler is the stable descending
sort by descriptor score: the sorted sibling list has weakly descending
scores, is a permutation of the input, keeps any fixed score class in its
original declaration order, and the map phase emits exactly one node per
sorted element in that order (shown by the emitted path sequence). -/
theorem c5_sibling_order (score : Option String → Int) (elements : List Element) :
    (sortElementsByDescriptorScore score elements).Pairwise
      (fun a b => score (Element.pathOf b) ≤ score (Element.pathOf a)) ∧
    (sortElementsByDescriptorScore score elements).Perm elements ∧
    (∀ s : Int, (sortElementsByDescriptorScore score elements).filter
        (fun e => score (Element.pathOf e) == s) =
      elements.filter (fun e => score (Element.pathOf e) == s)) ∧
    (∀ (dev : Bool) (env : ConfigEnv) (pre : String)
      (recurse : List Element → ConfigOpts → CompileSt →
        Except ConfigErr (List ConfigNode × CompileSt))
      (opts : ConfigOpts) (st : CompileSt) (cfgs : List ConfigNode) (st1 : CompileSt),
      mapConfigs dev env pre recurse (sortElementsByDescriptorScore score elements)
          opts st = Except.ok (cfgs, st1) →
      cfgs.map nodePath =
        (sortElementsByDescriptorScore score elements).map Element.pathOf) :=
  ⟨pairwise_sortElements score elements, perm_sortElements score elements,
   filter_sortElements score elements,
   fun dev env pre recurse opts st cfgs st1 h =>
     mapConfigs_paths dev env pre recurse _ opts st cfgs st1 h⟩

/-- Witness for c5_sibling_order: a concrete successful map over the sorted
sibling set of ce1 and ce2 whose emitted paths follow the sorted order. -/
theorem c5_sibling_order_witness :
    mapConfigs false env0 "" recurse0
        (sortElementsByDescriptorScore env0.descriptorScore [ce1, ce2])
        ⟨"/", 0⟩ ⟨[], []⟩ = Except.ok (w5cfgs, w5st) ∧
    w5cfgs.map nodePath =
      (sortElementsByDescriptorScore env0.descriptorScore [ce1, ce2]).map
        Element.pathOf :=
  ⟨rfl,
   (c5_sibling_order env0.descriptorScore [ce1, ce2]).2.2.2 false env0 "" recurse0
     ⟨"/", 0⟩ ⟨[], []⟩ w5cfgs w5st rfl⟩

/-- The emitted node of an element is Redirect-clean provided its children
argument, when present, is a Redirect-clean forest. -/
theorem nodeRedirectClean_emitNode (pre : String) (level : Nat) (e : Element)
    (c : Option (List ConfigNode))
    (hc : ∀ cs, c = some cs → nodesRedirectClean cs = true) :
    nodeRedirectClean (emitNode pre level e c) = true := by
  cases e with
  | text s =>
      cases c with
      | none => rfl
      | some cs => simp [emitNode, Element.tagOf, nodeRedirectClean, hc cs rfl]
  | elem t p r td stt l a ch =>
      cases t with
      | redirect => rfl
      | route =>
          cases c with
          | none => rfl
          | some cs => simp [emitNode, Element.tagOf, nodeRedirectClean, hc cs rfl]

/-- Every node successfully built by buildElement is Redirect-clean,
provided the child-compilation callback only produces Redirect-clean
forests. -/
theorem buildElement_clean (dev : Bool) (env : ConfigEnv) (pre : String)
    (recurse : List Element → ConfigOpts → CompileSt →
      Except ConfigErr (List ConfigNode × CompileSt))
    (hrec : ∀ els o s cfgs s2, recurse els o s = Except.ok (cfgs, s2) →
      nodesRedirectClean cfgs = true)
    (e : Element) (opts : ConfigOpts) (st : CompileSt) (node : ConfigNode)
    (st1 : CompileSt)
    (h : buildElement dev env pre recurse e opts st = Except.ok (node, st1)) :
    nodeRedirectClean node = true := by
  unfold buildElement at h
  split at h
  · split at h
    · split at h <;>
        · simp only [Except.ok.injEq, Prod.mk.injEq] at h
          rw [← h.1]
          exact nodeRedirectClean_emitNode pre opts.level e none
            (fun cs hcs => by cases hcs)
    · simp only [Except.ok.injEq, Prod.mk.injEq] at h
      rw [← h.1]
      exact nodeRedirectClean_emitNode pre opts.level e none
        (fun cs hcs => by cases hcs)
  · split at h
    · exact absurd h (by simp)
    · rename_i childCfgs st2 hr
      simp only [Except.ok.injEq, Prod.mk.injEq] at h
      rw [← h.1]
      refine nodeRedirectClean_emitNode pre opts.level e (some childCfgs) ?_
      intro cs hcs
      injection hcs with hcs2
      subst hcs2
      exact hrec _ _ _ _ _ hr

/-- A successful mapConfigs pass emits a Redirect-clean forest, provided the
child-compilation callback only produces Redirect-clean forests. -/
theorem mapConfigs_clean (dev : Bool) (env : ConfigEnv) (pre : String)
    (recurse : List Element → ConfigOpts → CompileSt →
      Except ConfigErr (List ConfigNode × CompileSt))
    (hrec : ∀ els o s cfgs s2, recurse els o s = Except.ok (cfgs, s2) →
      nodesRedirectClean cfgs = true) :
    ∀ (elements : List Element) (opts : ConfigOpts) (st : CompileSt)
      (cfgs : List ConfigNode) (st1 : CompileSt),
      mapConfigs dev env pre recurse elements opts st = Except.ok (cfgs, st1) →
      nodesRedirectClean cfgs = true := by
  intro elements
  induction elements with
  | nil =>
      intro opts st cfgs st1 h
      simp only [mapConfigs, Except.ok.injEq, Prod.mk.injEq] at h
      rw [← h.1]
      rfl
  | cons e rest ih =>
      intro opts st cfgs st1 h
      unfold mapConfigs at h
      split at h
      · exact absurd h (by simp)
      · rename_i node st2 hb
        split at h
        · exact absurd h (by simp)
        · rename_i nodes st3 hm
          simp only [Except.ok.injEq, Prod.mk.injEq] at h
          rw [← h.1]
          show (nodeRedirectClean node && nodesRedirectClean nodes) = true
          rw [buildElement_clean dev env pre recurse hrec e opts st node st2 hb,
            ih opts st2 nodes st3 hm]
          rfl

/-- C6 amended: every Redirect node in a successfully compiled tree carries
no loader and no children (checked recursively over the whole emitted
forest); the action prop, however, is carried over onto Redirect nodes. -/
theorem c6_redirect_invariant (dev : Bool) (env : ConfigEnv) (pre : String) :
    ∀ (fuel : Nat) (elements : List Element) (opts : ConfigOpts) (st : CompileSt)
      (cfgs : List ConfigNode) (st1 : CompileSt),
      createConfigs dev env pre fuel elements opts st = Except.ok (cfgs, st1) →
      nodesRedirectClean cfgs = true := by
  intro fuel
  induction fuel with
  | zero =>
      intro elements opts st cfgs st1 h
      exact absurd h (by simp [createConfigs])
  | succ fuel ih =>
      intro elements opts st cfgs st1 h
      unfold createConfigs at h
      split at h
      · exact absurd h (by simp)
      · rename_i valid st2 hf
        split at h
        · exact absurd h (by simp)
        · rename_i st3 hw
          exact mapConfigs_clean dev env pre (createConfigs dev env pre fuel)
            (fun els o s cfgs2 s2 hh => ih els o s cfgs2 s2 hh) _ opts st3 cfgs st1 h

/-- Witness for c6_redirect_invariant at the concrete compile c6run. -/
theorem c6_redirect_invariant_witness : nodesRedirectClean c6cfgs = true :=
  c6_redirect_invariant true env0 "" 2 [redirectWithAction] ⟨"/", 0⟩ ⟨[], []⟩
    c6cfgs c6st rfl

/-- C6 counterexample: compiling a Redirect element that declares an action
yields a Redirect config node that carries that action, so a Redirect node
of a compiled tree does not in general carry no action. -/
theorem c6_counterexample :
    c6cfgs.map nodeTag = [ElemTag.redirect] ∧
    c6cfgs.map nodeAction = [some (CfgHandler.raw (RawHandler.fn 7))] :=
  ⟨rfl, rfl⟩

/-- C7 amended: for two equivalent childless (leaf) sibling elements that
pass the structural checks, compiling the pair succeeds and still emits a
config node for both; in a DEV context the duplicate-route warning naming
both elements is emitted, while in a production context no warning is
emitted and the collision is silently recorded. -/
theorem c7_duplicate_warning (dev : Bool) (env : ConfigEnv) (pre : String) (fuel : Nat)
    (e1 e2 : Element) (base : String) (level : Nat)
    (ht1 : assertElementIsNotTextNode e1 = Except.ok ())
    (ht2 : assertElementIsNotTextNode e2 = Except.ok ())
    (hw1 : assertNoElementWarnings env e1 = Except.ok ())
    (hw2 : assertNoElementWarnings env e2 = Except.ok ())
    (hc1 : childrenToArray (Element.childrenOf e1) = [])
    (hc2 : childrenToArray (Element.childrenOf e2) = [])
    (hs : env.descriptorScore (Element.pathOf e2) ≤ env.descriptorScore (Element.pathOf e1))
    (he : env.equivalentDescriptors
      (env.descriptorStructure (descriptorPathOf env base (Element.pathOf e1)))
      (env.descriptorStructure (descriptorPathOf env base (Element.pathOf e2))) = true) :
    createConfigs dev env pre (fuel + 1) [e1, e2] ⟨base, level⟩ ⟨[], []⟩ =
      Except.ok ([emitNode pre level e1 none, emitNode pre level e2 none],
        if dev then
          ⟨[(e1, env.descriptorStructure (descriptorPathOf env base (Element.pathOf e1)))],
           [Warning.duplicateRoute [e1, e2]]⟩
        else
          ⟨[(e1, env.descriptorStructure (descriptorPathOf env base (Element.pathOf e1))),
            (e2, env.descriptorStructure (descriptorPathOf env base (Element.pathOf e2)))],
           []⟩) := by
  have hf : runErrorFilter dev [e1, e2] ⟨[], []⟩ = Except.ok ([e1, e2], ⟨[], []⟩) := by
    simp [runErrorFilter, verifyNoElementErrors, assertNoElementErrors, ht1, ht2]
  have hsort : sortElementsByDescriptorScore env.descriptorScore [e1, e2] = [e1, e2] := by
    simp [sortElementsByDescriptorScore, insertByScoreDesc, hs]
  have hwc : runWarningChecks dev env [e1, e2] ⟨[], []⟩ = Except.ok ⟨[], []⟩ := by
    simp [runWarningChecks, verifyNoElementWarnings, hw1, hw2]
  unfold createConfigs
  simp only [hf, hsort, hwc]
  cases dev <;>
    simp [mapConfigs, buildElement, hc1, hc2, he, List.find?]

/-- Witness for c7_duplicate_warning at the concrete equivalent leaf pair
ce1 and ce2 in a DEV context. -/
theorem c7_duplicate_warning_witness :
    createConfigs true env0 "" 1 [ce1, ce2] ⟨"/", 0⟩ ⟨[], []⟩ =
      Except.ok ([emitNode "" 0 ce1 none, emitNode "" 0 ce2 none],
        ⟨[(ce1, env0.descriptorStructure (descriptorPathOf env0 "/" (Element.pathOf ce1)))],
         [Warning.duplicateRoute [ce1, ce2]]⟩) :=
  c7_duplicate_warning true env0 "" 0 ce1 ce2 "/" 0 rfl rfl rfl rfl rfl rfl
    (by decide) rfl

/-- C7 counterexample: the same pair of equivalent childless siblings
compiled in a production (non-DEV) context produces no warning at all, so
the duplicate-route warning is not emitted whenever two equivalent leaf
elements are compiled. -/
theorem c7_counterexample :
    env0.equivalentDescriptors
      (env0.descriptorStructure (descriptorPathOf env0 "/" (Element.pathOf ce1)))
      (env0.descriptorStructure (descriptorPathOf env0 "/" (Element.pathOf ce2))) = true ∧
    createConfigs false env0 "" 1 [ce1, ce2] ⟨"/", 0⟩ ⟨[], []⟩ =
      Except.ok ([emitNode "" 0 ce1 none, emitNode "" 0 ce2 none],
        ⟨[(ce1, 5), (ce2, 5)], []⟩) :=
  ⟨rfl, rfl⟩

end RS
